import Mathlib

/-!
# Verification of the certificate-generator server (src/server.js)

This development shallowly embeds the JavaScript source.  JS strings are Lean
strings; the pdfkit drawing calls issued by `drawCertificate` become an
explicit list of operations (`PdfOp`) which a small graphics-state interpreter
(`step` / `runOps`) turns into the sequence of drawn page elements (`Elem`) in
draw order; each Express handler becomes a function from its request data to
an explicit result value.  Numbers appearing in the layout are embedded as
rationals, and the ambient current date (`new Date().toLocaleDateString()`) is
passed as an explicit string parameter `today`.
-/

/-- The whitespace class of JavaScript: the characters matched by the regex
class `\s` and stripped by `String.prototype.trim`. -/
def jsWsChar (c : Char) : Bool :=
  [' ', '\t', '\n', '\r', '\x0B', '\x0C', '\u00A0', '\u1680',
   '\u2000', '\u2001', '\u2002', '\u2003', '\u2004', '\u2005', '\u2006',
   '\u2007', '\u2008', '\u2009', '\u200A', '\u2028', '\u2029', '\u202F',
   '\u205F', '\u3000', '\uFEFF'].contains c

/-- JavaScript `String.prototype.trim`: strip leading and trailing
whitespace. -/
def jsTrim (s : String) : String :=
  String.mk (List.rdropWhile jsWsChar (s.data.dropWhile jsWsChar))

/-- JavaScript `a || b` on two strings: the empty string is falsy. -/
def jsOrStr (a b : String) : String := if a = "" then b else a

/-- An optional request field coerced to a string the way JS coerces
`undefined` in `x || y`: an absent field behaves like the empty string. -/
def optStr : Option String → String
  | none => ""
  | some s => s

/-- The transformation of a recipient name performed by
`name.replace` with the global whitespace-run regex (server.js lines 122 and
171): each maximal run of whitespace characters is replaced by a single
underscore.  The boolean records whether the previous character was inside a
whitespace run. -/
def collapseWs : Bool → List Char → List Char
  | _, [] => []
  | inWs, c :: cs =>
    if jsWsChar c then
      if inWs then collapseWs true cs else '_' :: collapseWs true cs
    else c :: collapseWs false cs

/-- `name.replace` with the whitespace-run regex, applied to a whole string. -/
def replaceWsUnderscore (s : String) : String := String.mk (collapseWs false s.data)

/-- The download filename built by the GET /api/generate handler
(server.js line 122). -/
def generateFilename (name : String) : String :=
  "Certificate_" ++ replaceWsUnderscore name ++ ".pdf"

/-- The attachment filename built by the POST /api/email handler
(server.js line 171). -/
def emailAttachmentFilename (name : String) : String :=
  "Certificate_" ++ replaceWsUnderscore name ++ ".pdf"

/-- Event-label resolution in the preview and generate handlers
(server.js lines 103 and 119): the JS expression
(req.query.event || currentEvent || 'Event').trim(). -/
def resolveEventQuery (qevent : Option String) (cur : String) : String :=
  jsTrim (jsOrStr (jsOrStr (optStr qevent) cur) "Event")

/-- Event-label resolution in the email handler (server.js line 141): the JS
expression event || currentEvent || 'Event', with no trim. -/
def resolveEventBody (ev : Option String) (cur : String) : String :=
  jsOrStr (jsOrStr (optStr ev) cur) "Event"

/-- One pdfkit method call issued by `drawCertificate` or by the handlers'
final `doc.end()`.  Each constructor mirrors one method of the pdfkit API as
used in server.js lines 57-98. -/
inductive PdfOp
  | addPage (w h : ℚ)
  | rect (x y w h : ℚ)
  | fill (color : String)
  | lineWidth (v : ℚ)
  | stroke (color : String)
  | fontSize (v : ℚ)
  | font (f : String)
  | fillColor (color : String)
  | text (s : String) (x y : ℚ) (align : Option String) (width : Option ℚ)
  | moveTo (x y : ℚ)
  | lineTo (x y : ℚ)
  | save
  | rotate (deg ox oy : ℚ)
  | opacity (v : ℚ)
  | restore
  | endDoc
deriving DecidableEq, Repr

/-- A4 landscape width in points (server.js line 58). -/
def W : ℚ := 842

/-- A4 landscape height in points (server.js line 59). -/
def H : ℚ := 595

/-- The body of `drawCertificate(doc, name, eventName, { watermark })`
(server.js lines 57-98), as the sequence of pdfkit calls it issues, in source
order.  The `today` parameter stands for the ambient
`new Date().toLocaleDateString()` of line 82. -/
def drawCertificate (name eventName : String) (watermark : Bool) (today : String) :
    List PdfOp :=
  [PdfOp.addPage W H,
   PdfOp.rect 0 0 W H, PdfOp.fill "#fdfcf7",
   PdfOp.rect 30 30 (W - 60) (H - 60), PdfOp.lineWidth 4, PdfOp.stroke "#222",
   PdfOp.fill "#222",
   PdfOp.fontSize 26, PdfOp.font "Helvetica-Bold",
   PdfOp.text "CERTIFICATE OF PARTICIPATION" 0 80 (some "center") none,
   PdfOp.fontSize 16, PdfOp.font "Helvetica",
   PdfOp.text "This is to certify that" 0 135 (some "center") none,
   PdfOp.fontSize 48, PdfOp.font "Helvetica-Bold", PdfOp.fill "#111",
   PdfOp.text name 0 175 (some "center") none,
   PdfOp.fontSize 16, PdfOp.font "Helvetica",
   PdfOp.text "has successfully participated in" 0 240 (some "center") none,
   PdfOp.fontSize 22, PdfOp.font "Helvetica-Bold",
   PdfOp.text eventName 0 270 (some "center") none,
   PdfOp.fontSize 12, PdfOp.font "Helvetica-Oblique", PdfOp.fill "#333",
   PdfOp.text ("Date: " ++ today) 70 (H - 80) none none,
   PdfOp.moveTo (W - 250) (H - 120), PdfOp.lineTo (W - 70) (H - 120),
   PdfOp.stroke "#333",
   PdfOp.fontSize 12, PdfOp.font "Helvetica",
   PdfOp.text "Authorized Signature" (W - 250) (H - 110) (some "center") (some 180)]
  ++ (if watermark then
       [PdfOp.save, PdfOp.rotate (-20) (W / 2) (H / 2),
        PdfOp.fontSize 100, PdfOp.fillColor "#cccccc", PdfOp.opacity 0.2,
        PdfOp.font "Helvetica-Bold",
        PdfOp.text "SAMPLE" (W / 2 - 250) (H / 2 - 60) none none,
        PdfOp.opacity 1, PdfOp.restore]
      else [])

/-- One render call as each handler performs it: `drawCertificate` on a fresh
document followed by `doc.end()` (server.js lines 112-113, 130-131,
145-151). -/
def render (name eventName : String) (watermark : Bool) (today : String) :
    List PdfOp :=
  drawCertificate name eventName watermark today ++ [PdfOp.endDoc]

/-- One entry of a pdfkit path under construction: a rectangle queued by
`doc.rect`, or a segment queued by `doc.moveTo` / `doc.lineTo`. -/
inductive PathCmd
  | rect (x y w h : ℚ)
  | move (x y : ℚ)
  | lineSeg (x y : ℚ)
deriving DecidableEq, Repr

/-- The graphics state the interpreter tracks: the pdfkit text attributes, the
current fill colour, stroke line width, constant alpha, and the accumulated
rotation transforms (angle in degrees together with the rotation origin). -/
structure GState where
  fontSz : ℚ
  fontName : String
  fillCol : String
  alpha : ℚ
  lineW : ℚ
  rot : List (ℚ × ℚ × ℚ)
deriving DecidableEq, Repr

/-- The pdfkit defaults for a fresh document: Helvetica 12, black fill, line
width 1, fully opaque, no transform. -/
def initG : GState :=
  { fontSz := 12, fontName := "Helvetica", fillCol := "#000000",
    alpha := 1, lineW := 1, rot := [] }

/-- A drawn element of the finished page, in draw order (later elements paint
over earlier ones).  Each element captures the graphics state it was drawn
with, so positions, fonts, colours, opacity and rotation are all explicit. -/
inductive Elem
  | page (w h : ℚ)
  | fillPath (p : List PathCmd) (color : String) (alpha : ℚ) (rot : List (ℚ × ℚ × ℚ))
  | strokePath (p : List PathCmd) (lw : ℚ) (color : String) (alpha : ℚ)
      (rot : List (ℚ × ℚ × ℚ))
  | textEl (s : String) (x y : ℚ) (align : Option String) (width : Option ℚ)
      (font : String) (size : ℚ) (color : String) (alpha : ℚ)
      (rot : List (ℚ × ℚ × ℚ))
  | finalized
deriving DecidableEq, Repr

/-- Full interpreter state: graphics state, the save/restore stack, the path
under construction, and the elements emitted so far. -/
structure RState where
  g : GState
  stack : List GState
  path : List PathCmd
  out : List Elem
deriving DecidableEq, Repr

/-- The interpreter state of a fresh document: defaults, empty stack, empty
path, nothing drawn. -/
def initRS : RState := { g := initG, stack := [], path := [], out := [] }

/-- Append one drawn element. -/
def emit (s : RState) (e : Elem) : RState := { s with out := s.out ++ [e] }

/-- One step of the pdfkit semantics for the operations used by the source.
`fill` paints the queued path (if any) and sets the fill colour; `stroke`
strokes the queued path with the current line width; `save` / `restore` push
and pop the graphics state; `rotate` composes a rotation onto the current
transform; text captures the current font, size, colour, alpha and transform.
`addPage` conservatively leaves the graphics state untouched. -/
def step (s : RState) : PdfOp → RState
  | PdfOp.addPage w h => emit s (Elem.page w h)
  | PdfOp.rect x y w h => { s with path := s.path ++ [PathCmd.rect x y w h] }
  | PdfOp.moveTo x y => { s with path := s.path ++ [PathCmd.move x y] }
  | PdfOp.lineTo x y => { s with path := s.path ++ [PathCmd.lineSeg x y] }
  | PdfOp.fill c =>
      match s.path with
      | [] => { s with g := { s.g with fillCol := c } }
      | p => { emit s (Elem.fillPath p c s.g.alpha s.g.rot) with
                 g := { s.g with fillCol := c }, path := [] }
  | PdfOp.stroke c =>
      match s.path with
      | [] => s
      | p => { emit s (Elem.strokePath p s.g.lineW c s.g.alpha s.g.rot) with
                 path := [] }
  | PdfOp.lineWidth v => { s with g := { s.g with lineW := v } }
  | PdfOp.fontSize v => { s with g := { s.g with fontSz := v } }
  | PdfOp.font f => { s with g := { s.g with fontName := f } }
  | PdfOp.fillColor c => { s with g := { s.g with fillCol := c } }
  | PdfOp.text str x y al wd =>
      emit s (Elem.textEl str x y al wd s.g.fontName s.g.fontSz s.g.fillCol
        s.g.alpha s.g.rot)
  | PdfOp.save => { s with stack := s.g :: s.stack }
  | PdfOp.restore =>
      match s.stack with
      | [] => s
      | g0 :: rest => { s with g := g0, stack := rest }
  | PdfOp.rotate a ox oy => { s with g := { s.g with rot := s.g.rot ++ [(a, ox, oy)] } }
  | PdfOp.opacity v => { s with g := { s.g with alpha := v } }
  | PdfOp.endDoc => emit s Elem.finalized

/-- Run a list of operations from a given interpreter state. -/
def runOps (s : RState) (ops : List PdfOp) : RState := ops.foldl step s

/-- The drawn elements of a document produced by one sequence of operations on
a fresh document, in draw order. -/
def elemsOf (ops : List PdfOp) : List Elem := (runOps initRS ops).out

/-- The alpha an element was drawn with. -/
def elAlpha : Elem → ℚ
  | Elem.page _ _ => 1
  | Elem.fillPath _ _ a _ => a
  | Elem.strokePath _ _ _ a _ => a
  | Elem.textEl _ _ _ _ _ _ _ _ a _ => a
  | Elem.finalized => 1

/-- The rotation transforms an element was drawn under. -/
def elRot : Elem → List (ℚ × ℚ × ℚ)
  | Elem.page _ _ => []
  | Elem.fillPath _ _ _ r => r
  | Elem.strokePath _ _ _ _ r => r
  | Elem.textEl _ _ _ _ _ _ _ _ _ r => r
  | Elem.finalized => []

/-- An overlay element: one drawn under a non-identity transform.  The
watermark is the only element the renderer ever draws under a transform (its
non-unit alpha is pinned down separately). -/
def isOverlay (e : Elem) : Bool := !(elRot e).isEmpty

/-- The eleven ordinary page elements every render call draws, in draw order,
with the graphics attributes each is drawn with. -/
def baseElems (name eventName today : String) : List Elem :=
  [Elem.page W H,
   Elem.fillPath [PathCmd.rect 0 0 W H] "#fdfcf7" 1 [],
   Elem.strokePath [PathCmd.rect 30 30 (W - 60) (H - 60)] 4 "#222" 1 [],
   Elem.textEl "CERTIFICATE OF PARTICIPATION" 0 80 (some "center") none
     "Helvetica-Bold" 26 "#222" 1 [],
   Elem.textEl "This is to certify that" 0 135 (some "center") none
     "Helvetica" 16 "#222" 1 [],
   Elem.textEl name 0 175 (some "center") none "Helvetica-Bold" 48 "#111" 1 [],
   Elem.textEl "has successfully participated in" 0 240 (some "center") none
     "Helvetica" 16 "#111" 1 [],
   Elem.textEl eventName 0 270 (some "center") none "Helvetica-Bold" 22 "#111" 1 [],
   Elem.textEl ("Date: " ++ today) 70 (H - 80) none none
     "Helvetica-Oblique" 12 "#333" 1 [],
   Elem.strokePath [PathCmd.move (W - 250) (H - 120), PathCmd.lineSeg (W - 70) (H - 120)]
     4 "#333" 1 [],
   Elem.textEl "Authorized Signature" (W - 250) (H - 110) (some "center") (some 180)
     "Helvetica" 12 "#333" 1 []]

/-- The watermark overlay element: 100 pt Helvetica-Bold light-gray "SAMPLE"
at alpha 0.2, drawn under a rotation of -20 degrees (20 degrees
counter-clockwise in the y-down page coordinate system) about the page
center. -/
def sampleElem : Elem :=
  Elem.textEl "SAMPLE" (W / 2 - 250) (H / 2 - 60) none none "Helvetica-Bold"
    100 "#cccccc" 0.2 [(-20, W / 2, H / 2)]

/-- The stages of the page lifecycle named by the specification. -/
inductive Stage
  | allocated
  | backgroundPainted
  | framed
  | textDrawn
  | watermarked
  | finalStage
deriving DecidableEq, Repr

/-- Linear position of a stage in the pipeline. -/
def stageIdx : Stage → Nat
  | Stage.allocated => 0
  | Stage.backgroundPainted => 1
  | Stage.framed => 2
  | Stage.textDrawn => 3
  | Stage.watermarked => 4
  | Stage.finalStage => 5

/-- Whether a queued path begins with a rectangle (the frame is the only
stroked rectangle the renderer draws). -/
def isRectPath : List PathCmd → Bool
  | PathCmd.rect _ _ _ _ :: _ => true
  | _ => false

/-- The lifecycle stage an element belongs to: the page allocation, the
background fill, the stroked frame rectangle, ordinary text and line content,
the rotated overlay (the only element drawn under a transform), and
finalization. -/
def stageOf : Elem → Stage
  | Elem.page _ _ => Stage.allocated
  | Elem.fillPath _ _ _ _ => Stage.backgroundPainted
  | Elem.strokePath p _ _ _ _ =>
      if isRectPath p then Stage.framed else Stage.textDrawn
  | Elem.textEl _ _ _ _ _ _ _ _ _ r =>
      if r.isEmpty then Stage.textDrawn else Stage.watermarked
  | Elem.finalized => Stage.finalStage

/-- Erase the content of the date line (the unique element set in the italic
Helvetica-Oblique face), leaving every other element untouched. -/
def scrubDate : Elem → Elem
  | Elem.textEl s x y al wd f sz c a r =>
      if f == "Helvetica-Oblique" then Elem.textEl "" x y al wd f sz c a r
      else Elem.textEl s x y al wd f sz c a r
  | e => e

/-- The result an Express handler produces, as visible to the HTTP caller. -/
inductive HandlerResult
  | reject (status : Nat) (msg : String)
  | pdfResponse (ops : List PdfOp) (filename : Option String)
  | emailSent (ops : List PdfOp) (attachmentName : String)
deriving DecidableEq, Repr

/-- The GET /api/preview handler (server.js lines 101-114): trim the name,
reject with 400 when it is empty, otherwise render with the watermark. -/
def previewHandler (qname qevent : Option String) (cur today : String) :
    HandlerResult :=
  let name := jsTrim (optStr qname)
  let eventName := resolveEventQuery qevent cur
  if name = "" then HandlerResult.reject 400 "Missing name"
  else HandlerResult.pdfResponse (render name eventName true today) none

/-- The GET /api/generate handler (server.js lines 117-132): trim the name,
reject with 400 when it is empty, otherwise render without the watermark and
expose a download filename. -/
def generateHandler (qname qevent : Option String) (cur today : String) :
    HandlerResult :=
  let name := jsTrim (optStr qname)
  let eventName := resolveEventQuery qevent cur
  if name = "" then HandlerResult.reject 400 "Missing name"
  else
    HandlerResult.pdfResponse (render name eventName false today)
      (some (generateFilename name))

/-- The JSON body of POST /api/email. -/
structure EmailBody where
  name : Option String
  email : Option String
  event : Option String
deriving DecidableEq, Repr

/-- The POST /api/email handler, success path (server.js lines 137-175):
reject with 400 when name or email is absent or empty (no trimming),
otherwise render the untrimmed name without the watermark and attach the
result. -/
def emailHandler (b : EmailBody) (cur today : String) : HandlerResult :=
  if optStr b.name = "" ∨ optStr b.email = "" then
    HandlerResult.reject 400 "name and email required"
  else
    HandlerResult.emailSent
      (render (optStr b.name) (resolveEventBody b.event cur) false today)
      (emailAttachmentFilename (optStr b.name))

/-- What a handler wires the document's error event to. -/
inductive StreamErrorAction
  | logToConsole
  | rejectPromise
deriving DecidableEq, Repr

/-- The preview handler's error wiring (server.js line 109):
doc.on with console.error. -/
def previewErrAction : StreamErrorAction := StreamErrorAction.logToConsole

/-- The generate handler's error wiring (server.js line 127):
doc.on with console.error. -/
def generateErrAction : StreamErrorAction := StreamErrorAction.logToConsole

/-- The email handler's error wiring (server.js line 150): the document error
event rejects the buffer promise, which the surrounding catch turns into a
500 response. -/
def emailErrAction : StreamErrorAction := StreamErrorAction.rejectPromise

/-- What the caller ends up observing from a handler's response. -/
inductive CallerView
  | completeBody (ops : List PdfOp)
  | truncatedBody (opsSoFar : List PdfOp)
  | errorResponse (status : Nat) (msg : String)
deriving DecidableEq, Repr

/-- Modelled stream semantics for a mid-render failure: when the document is
piped straight to the response and the error event is merely logged, the
caller receives the already-piped output truncated, with no error indication;
when the error event rejects the buffering promise, the catch block answers
with a 500 carrying the message and no document is delivered. -/
def callerViewOnFailure (a : StreamErrorAction) (flushed : List PdfOp)
    (msg : String) : CallerView :=
  match a with
  | StreamErrorAction.logToConsole => CallerView.truncatedBody flushed
  | StreamErrorAction.rejectPromise => CallerView.errorResponse 500 msg

/-- One row delivered by the CSV parse stream, with possibly missing
columns. -/
structure CsvRow where
  name : Option String
  email : Option String
deriving DecidableEq, Repr

/-- A stored participant record. -/
structure Participant where
  name : String
  email : String
deriving DecidableEq, Repr

/-- The filter and normalization the upload handler applies to one parsed row
(server.js lines 32-36): keep a row only when its name is present and
truthy both before and after trimming; store the trimmed name and the trimmed
email, the latter defaulting to the empty string. -/
def processRow (r : CsvRow) : Option Participant :=
  match r.name with
  | none => none
  | some n =>
      if n = "" then none
      else if jsTrim n = "" then none
      else some { name := jsTrim n,
                  email := jsOrStr (jsTrim (optStr r.email)) "" }

/-- The response of the upload handler. -/
inductive UploadResp
  | success (count : Nat) (event : String)
  | failure (status : Nat) (msg : String)
deriving DecidableEq, Repr

/-- The POST /api/upload handler's effect on the stored participant list
(server.js lines 30-45): the stream events are folded into a parse result;
on the end event the collected rows replace the list and a success response
reports the count, on the error event the list is left untouched and a 400
response carries the message. -/
def uploadOutcome (prev : List Participant) (cur : String)
    (parsed : Except String (List CsvRow)) : List Participant × UploadResp :=
  match parsed with
  | Except.error msg => (prev, UploadResp.failure 400 msg)
  | Except.ok rows =>
      let ps := rows.filterMap processRow
      (ps, UploadResp.success ps.length cur)

/-! ## Helper lemmas -/

/-- Running a concatenation of operation lists runs them in sequence. -/
theorem runOps_append (s : RState) (a b : List PdfOp) :
    runOps s (a ++ b) = runOps (runOps s a) b := by
  simp [runOps]

/-- The graphics state pdfkit is left in after one render call: the attributes
last set by the drawing sequence, with alpha and transform back at their
initial values. -/
def gAfterRender : GState :=
  { fontSz := 12, fontName := "Helvetica", fillCol := "#333",
    alpha := 1, lineW := 4, rot := [] }

/-- Full evaluation of one render call on a fresh document: the drawn
elements are the eleven base elements, the watermark overlay exactly when it
was requested, and the finalization marker; the stack and path are empty
afterwards. -/
theorem runOps_initRS_render (n e : String) (wm : Bool) (d : String) :
    runOps initRS (render n e wm d) =
      { g := gAfterRender, stack := [], path := [],
        out := baseElems n e d ++ (if wm then [sampleElem] else []) ++
          [Elem.finalized] } := by
  cases wm <;> rfl

/-- The element list of one render call. -/
theorem elemsOf_render (n e : String) (wm : Bool) (d : String) :
    elemsOf (render n e wm d) =
      baseElems n e d ++ (if wm then [sampleElem] else []) ++ [Elem.finalized] := by
  cases wm <;> rfl

/-- The underscore is not a JavaScript whitespace character. -/
theorem jsWsChar_underscore : jsWsChar '_' = false := by decide

/-- The output of the whitespace-run replacement contains no whitespace
character. -/
theorem collapseWs_no_ws (l : List Char) :
    ∀ b : Bool, ((collapseWs b l).all fun c => !jsWsChar c) = true := by
  induction l with
  | nil => intro b; rfl
  | cons c cs ih =>
    intro b
    cases hc : jsWsChar c with
    | false => simp [collapseWs, hc, ih]
    | true =>
      cases b with
      | true => simp [collapseWs, hc, ih]
      | false => simp [collapseWs, hc, ih, jsWsChar_underscore]

/-- Stripping leading whitespace from an already right-stripped,
left-stripped character list changes nothing. -/
theorem dropWhile_rdropWhile_self (l : List Char) :
    (List.rdropWhile jsWsChar (l.dropWhile jsWsChar)).dropWhile jsWsChar =
      List.rdropWhile jsWsChar (l.dropWhile jsWsChar) := by
  cases h : List.rdropWhile jsWsChar (l.dropWhile jsWsChar) with
  | nil => rfl
  | cons c cs =>
    have hpre := List.rdropWhile_prefix jsWsChar (l.dropWhile jsWsChar)
    rw [h] at hpre
    obtain ⟨r, hr⟩ := hpre
    have hq := List.head?_dropWhile_not jsWsChar l
    rw [← hr] at hq
    simp only [List.cons_append, List.head?_cons] at hq
    simp [List.dropWhile_cons, hq]

/-- JavaScript trim is idempotent. -/
theorem jsTrim_idem (s : String) : jsTrim (jsTrim s) = jsTrim s := by
  show String.mk (List.rdropWhile jsWsChar
      ((List.rdropWhile jsWsChar (s.data.dropWhile jsWsChar)).dropWhile jsWsChar)) =
    String.mk (List.rdropWhile jsWsChar (s.data.dropWhile jsWsChar))
  rw [dropWhile_rdropWhile_self]
  exact congrArg String.mk
    (List.rdropWhile_idempotent jsWsChar (s.data.dropWhile jsWsChar))

/-- Every participant record the upload filter produces has a non-empty
trim-stable name and a trim-stable email. -/
theorem processRow_ok (r : CsvRow) (p : Participant) (h : processRow r = some p) :
    p.name ≠ "" ∧ jsTrim p.name = p.name ∧ jsTrim p.email = p.email := by
  cases hn : r.name with
  | none => simp [processRow, hn] at h
  | some n =>
    simp only [processRow, hn] at h
    by_cases h1 : n = ""
    · rw [if_pos h1] at h; exact absurd h (by simp)
    · rw [if_neg h1] at h
      by_cases h2 : jsTrim n = ""
      · rw [if_pos h2] at h; exact absurd h (by simp)
      · rw [if_neg h2] at h
        have hp := Option.some.inj h
        rw [← hp]
        refine ⟨h2, jsTrim_idem n, ?_⟩
        show jsTrim (jsOrStr (jsTrim (optStr r.email)) "") =
          jsOrStr (jsTrim (optStr r.email)) ""
        by_cases he : jsTrim (optStr r.email) = ""
        · simp only [jsOrStr, he, if_pos]
          decide
        · simp [jsOrStr, he, jsTrim_idem]

/-! ## Claims -/

/-- **C1** (counterexample).  The claim that every entry point refuses a
whitespace-only recipient name is false for the email entry point: a request
whose name is a single space passes the email handler's validation, the
renderer is invoked with the whitespace-only name, and a 34-operation
document is produced and attached — even though the name trims to empty. -/
theorem c1_email_whitespace_cex :
    jsTrim " " = "" ∧
    emailHandler { name := some " ", email := some "a@b.c", event := none }
        "Community Event" "10/11/2026" =
      HandlerResult.emailSent (render " " "Community Event" false "10/11/2026")
        "Certificate__.pdf" ∧
    (render " " "Community Event" false "10/11/2026").length = 34 := by
  refine ⟨by decide, ?_, rfl⟩
  rfl

/-- **C1** (amended).  Empty and whitespace-only recipient names are rejected
with a 400 before any rendering in the preview and generate entry points,
which trim the name; the email entry point rejects exactly the requests whose
raw name or email is absent or empty, so a whitespace-only name is accepted
there and rendered. -/
theorem c1_empty_name_validation (qn qe : Option String) (cur today : String)
    (b : EmailBody) :
    (jsTrim (optStr qn) = "" →
      previewHandler qn qe cur today = HandlerResult.reject 400 "Missing name") ∧
    (jsTrim (optStr qn) = "" →
      generateHandler qn qe cur today = HandlerResult.reject 400 "Missing name") ∧
    (emailHandler b cur today = HandlerResult.reject 400 "name and email required" ↔
      (optStr b.name = "" ∨ optStr b.email = "")) := by
  refine ⟨fun h => ?_, fun h => ?_, ?_, ?_⟩
  · simp [previewHandler, h]
  · simp [generateHandler, h]
  · intro h
    by_cases hcond : (optStr b.name = "" ∨ optStr b.email = "")
    · exact hcond
    · rw [emailHandler, if_neg hcond] at h
      exact absurd h (by simp)
  · intro h
    rw [emailHandler, if_pos h]

/-- **C1** witness: at concrete inputs, a whitespace-only name is rejected by
preview and generate, and an empty name is rejected by email. -/
theorem c1_empty_name_validation_witness :
    previewHandler (some "   ") none "Community Event" "10/11/2026" =
      HandlerResult.reject 400 "Missing name" ∧
    generateHandler (some "   ") none "Community Event" "10/11/2026" =
      HandlerResult.reject 400 "Missing name" ∧
    emailHandler { name := some "", email := some "a@b.c", event := none }
        "Community Event" "10/11/2026" =
      HandlerResult.reject 400 "name and email required" := by
  obtain ⟨h1, h2, h3⟩ := c1_empty_name_validation (some "   ") none
    "Community Event" "10/11/2026"
    { name := some "", email := some "a@b.c", event := none }
  exact ⟨h1 (by decide), h2 (by decide), h3.mpr (Or.inl rfl)⟩

/-- **C2** (confirmed).  With the watermark enabled, the output is the base
content followed by the overlay and finalization, where the overlay is the
100 pt Helvetica-Bold light-gray (\x23cccccc) "SAMPLE" label at alpha 0.2,
drawn under a rotation of -20 degrees (20 degrees counter-clockwise in the
y-down page coordinate system) about the page center (W/2, H/2), after every
other element; the base content is drawn under no transform and at full
opacity, and with the watermark disabled the output is exactly the base
content and finalization, so no such label appears. -/
theorem c2_watermark_attributes (n e d : String) :
    elemsOf (render n e true d) = baseElems n e d ++ [sampleElem, Elem.finalized] ∧
    sampleElem = Elem.textEl "SAMPLE" (W / 2 - 250) (H / 2 - 60) none none
      "Helvetica-Bold" 100 "#cccccc" 0.2 [(-20, W / 2, H / 2)] ∧
    ((baseElems n e d).all fun el => !isOverlay el) = true ∧
    ((baseElems n e d).all fun el => elAlpha el == 1) = true ∧
    elemsOf (render n e false d) = baseElems n e d ++ [Elem.finalized] :=
  ⟨rfl, rfl, rfl, rfl, rfl⟩

/-- **C3** (confirmed).  Every render call passes the page through the stages
allocated, background-painted, framed, text-drawn, optionally watermarked,
finalized, in that order with no stage skipped or repeated out of order: the
stage trace of the drawn elements is monotone, collapses to exactly the
specified pipeline, the frame (the only stroked rectangle) comes after the
background fill and before every text element, and finalization is the last
event and happens exactly once, so nothing is drawn after it. -/
theorem c3_stage_pipeline (n e : String) (wm : Bool) (d : String) :
    ((elemsOf (render n e wm d)).map stageOf).destutter (· ≠ ·) =
      [Stage.allocated, Stage.backgroundPainted, Stage.framed, Stage.textDrawn] ++
        (if wm then [Stage.watermarked] else []) ++ [Stage.finalStage] ∧
    List.Sorted (· ≤ ·) (((elemsOf (render n e wm d)).map stageOf).map stageIdx) ∧
    (elemsOf (render n e wm d)).getLast? = some Elem.finalized ∧
    (elemsOf (render n e wm d)).count Elem.finalized = 1 := by
  cases wm
  · refine ⟨rfl, ?_, rfl, rfl⟩
    have h : ((elemsOf (render n e false d)).map stageOf).map stageIdx =
        [0, 1, 2, 3, 3, 3, 3, 3, 3, 3, 3, 5] := rfl
    rw [h]; decide
  · refine ⟨rfl, ?_, rfl, rfl⟩
    have h : ((elemsOf (render n e true d)).map stageOf).map stageIdx =
        [0, 1, 2, 3, 3, 3, 3, 3, 3, 3, 3, 4, 5] := rfl
    rw [h]; decide

/-- **C4** (counterexample).  The claim that every painting or encoding
failure is surfaced to the caller and never yields a partial document is
false for the preview entry point: its document error event is wired to a
console log only, so on a mid-stream failure the caller receives the
already-piped truncated body and no error response. -/
theorem c4_swallowed_error_cex :
    callerViewOnFailure previewErrAction [PdfOp.addPage W H] "stream write failure" =
      CallerView.truncatedBody [PdfOp.addPage W H] ∧
    callerViewOnFailure previewErrAction [PdfOp.addPage W H] "stream write failure" ≠
      CallerView.errorResponse 500 "stream write failure" :=
  ⟨rfl, fun h => nomatch h⟩

/-- **C4** (amended).  Only the email entry point surfaces a mid-render
failure to its caller (as a 500 response carrying the message, with no
document attached); the preview and generate entry points merely log the
document's error event to the console, and the caller receives the truncated
already-piped body with no error indication. -/
theorem c4_error_surfacing (flushed : List PdfOp) (msg : String) :
    callerViewOnFailure emailErrAction flushed msg =
      CallerView.errorResponse 500 msg ∧
    callerViewOnFailure previewErrAction flushed msg =
      CallerView.truncatedBody flushed ∧
    callerViewOnFailure generateErrAction flushed msg =
      CallerView.truncatedBody flushed :=
  ⟨rfl, rfl, rfl⟩

/-- **C5** (confirmed).  For every name, event label and date, the output
with the watermark enabled differs from the output with it disabled only by
the presence of the overlay: removing the overlay elements (those drawn under
a transform) from the watermarked output yields exactly the unwatermarked
output, element for element with identical content and positions, and the
unwatermarked output contains no overlay element. -/
theorem c5_watermark_toggling (n e d : String) :
    (elemsOf (render n e true d)).filter (fun el => !isOverlay el) =
      elemsOf (render n e false d) ∧
    ((elemsOf (render n e false d)).all fun el => !isOverlay el) = true :=
  ⟨rfl, rfl⟩

set_option maxHeartbeats 4000000 in
/-- **C6** (confirmed).  The watermark's rotation and opacity are applied
inside a save/restore bracket, so after a render call the rotation transform,
the alpha and the save stack are exactly what they were before the call —
from any starting graphics state — and running two render calls back to back
on one document draws exactly the elements each call would draw on its own:
no rotation, opacity or transform state leaks from one call into the next. -/
theorem c6_no_state_leak (n1 e1 : String) (wm1 : Bool) (d1 n2 e2 : String)
    (wm2 : Bool) (d2 : String) (g : GState) (stk : List GState)
    (out0 : List Elem) :
    ((runOps { g := g, stack := stk, path := [], out := out0 }
        (render n1 e1 wm1 d1)).g.rot = g.rot ∧
     (runOps { g := g, stack := stk, path := [], out := out0 }
        (render n1 e1 wm1 d1)).g.alpha = g.alpha ∧
     (runOps { g := g, stack := stk, path := [], out := out0 }
        (render n1 e1 wm1 d1)).stack = stk) ∧
    (runOps initRS (render n1 e1 wm1 d1 ++ render n2 e2 wm2 d2)).out =
      elemsOf (render n1 e1 wm1 d1) ++ elemsOf (render n2 e2 wm2 d2) := by
  constructor
  · cases wm1 <;> exact ⟨rfl, rfl, rfl⟩
  · rw [runOps_append, runOps_initRS_render, elemsOf_render, elemsOf_render]
    cases wm1 <;> cases wm2 <;> rfl

/-- **C7** (confirmed).  The renderer is a pure function of the name, the
event label, the watermark flag and the current date string: two calls with
identical inputs and the same formatted date produce identical operation
streams (hence byte-identical output), and across different dates the drawn
elements agree everywhere except the content of the date line. -/
theorem c7_determinism_mod_date (n e : String) (wm : Bool) (d1 d2 : String) :
    (d1 = d2 → render n e wm d1 = render n e wm d2) ∧
    (elemsOf (render n e wm d1)).map scrubDate =
      (elemsOf (render n e wm d2)).map scrubDate := by
  refine ⟨fun h => by rw [h], ?_⟩
  cases wm <;> rfl

/-- **C7** witness: same-day calls coincide at concrete inputs, and the
element lists for two different dates agree once the date line is erased. -/
theorem c7_determinism_mod_date_witness :
    render "Alice Smith" "Spring Hackathon" true "10/11/2026" =
      render "Alice Smith" "Spring Hackathon" true "10/11/2026" ∧
    (elemsOf (render "Alice Smith" "Spring Hackathon" true "10/11/2026")).map
        scrubDate =
      (elemsOf (render "Alice Smith" "Spring Hackathon" true "10/12/2026")).map
        scrubDate :=
  ⟨(c7_determinism_mod_date "Alice Smith" "Spring Hackathon" true "10/11/2026"
      "10/11/2026").1 rfl,
   (c7_determinism_mod_date "Alice Smith" "Spring Hackathon" true "10/11/2026"
      "10/12/2026").2⟩

/-- **C8** (counterexample).  The claim that an absent or empty event label
makes the handlers use the process-wide current-event value as the label is
false for preview and generate: with the stored value " Spring Fest " and no
query event, those handlers use the trimmed string "Spring Fest", which is
not the stored value, while the email handler uses the stored value
verbatim — so the fallback is also not uniform across the entry points. -/
theorem c8_trimmed_fallback_cex :
    resolveEventQuery none " Spring Fest " = "Spring Fest" ∧
    "Spring Fest" ≠ " Spring Fest " ∧
    resolveEventBody none " Spring Fest " = " Spring Fest " := by
  refine ⟨by decide, by decide, rfl⟩

/-- **C8** (amended).  When the request's event field is absent or empty,
every entry point falls back to the process-wide current-event value, but
preview and generate use it trimmed of surrounding whitespace while email
uses it verbatim; if the stored value is itself empty the literal "Event" is
used instead. -/
theorem c8_event_fallback (q : Option String) (cur : String)
    (h : optStr q = "") :
    (cur ≠ "" → resolveEventQuery q cur = jsTrim cur ∧
      resolveEventBody q cur = cur) ∧
    (cur = "" → resolveEventQuery q cur = "Event" ∧
      resolveEventBody q cur = "Event") := by
  constructor
  · intro hc
    constructor
    · simp [resolveEventQuery, jsOrStr, h, hc]
    · simp [resolveEventBody, jsOrStr, h, hc]
  · intro hc
    constructor
    · simp only [resolveEventQuery, jsOrStr, h, hc, if_pos]
      decide
    · simp [resolveEventBody, jsOrStr, h, hc]

/-- **C8** witness: with the default stored value and an absent query event,
preview and generate resolve to the trimmed stored value and email to the
stored value itself. -/
theorem c8_event_fallback_witness :
    resolveEventQuery none "Community Event" = jsTrim "Community Event" ∧
    resolveEventBody none "Community Event" = "Community Event" :=
  (c8_event_fallback none "Community Event" rfl).1 (by decide)

/-- **C9** (confirmed).  Both places that expose a filename for a produced
document — the generate download and the email attachment — derive it from
the recipient name by replacing whitespace runs with underscores, yielding
Certificate_ followed by the transformed name and .pdf; the transformed name
contains no whitespace character. -/
theorem c9_filename_derivation (name : String) :
    generateFilename name = "Certificate_" ++ replaceWsUnderscore name ++ ".pdf" ∧
    emailAttachmentFilename name = generateFilename name ∧
    ((replaceWsUnderscore name).data.all fun c => !jsWsChar c) = true :=
  ⟨rfl, rfl, collapseWs_no_ws name.data false⟩

/-- **C10** (confirmed).  The upload handler is atomic with respect to the
stored participant list: on a parse error the previous list is returned
unchanged together with a 400 error response, and on success the list is
replaced by exactly the filtered rows, every stored record carrying a
non-empty trim-stable name and a (possibly empty) trim-stable email. -/
theorem c10_upload_atomicity (prev : List Participant) (cur msg : String)
    (rows : List CsvRow) :
    uploadOutcome prev cur (Except.error msg) =
      (prev, UploadResp.failure 400 msg) ∧
    (uploadOutcome prev cur (Except.ok rows)).1 = rows.filterMap processRow ∧
    ((uploadOutcome prev cur (Except.ok rows)).1.all fun p =>
        !(p.name == "") && (jsTrim p.name == p.name) &&
          (jsTrim p.email == p.email)) = true := by
  refine ⟨rfl, rfl, ?_⟩
  rw [List.all_eq_true]
  intro p hp
  rw [show (uploadOutcome prev cur (Except.ok rows)).1 = rows.filterMap processRow
    from rfl] at hp
  rw [List.mem_filterMap] at hp
  obtain ⟨r, _, hr⟩ := hp
  obtain ⟨h1, h2, h3⟩ := processRow_ok r p hr
  simp [h1, h2, h3]
